import Mathlib

/-!
Shallow embedding of the device-compliance layer of ncclient
(`ncclient/devices/junos.py`, `JunosDeviceHandler`): the raw-reply repair
pipeline `handle_raw_dispatch`, the schema-reply namespace fixup
`fix_get_schema_reply`, and the parser-strategy selector `get_xml_parser`.

Raw replies are modelled as lists of characters.  The Python `re` operations
used by the source are embedded as explicit scanning functions:

* `'routing-engine' in raw`               → `containsSub`
* `re.sub(r'<ok/>', repl, raw)`           → `replaceAll` (leftmost,
  non-overlapping, replaces every occurrence)
* `re.search(r'<rpc-reply>.*?</rpc-reply>.*</hello>?', raw, re.M|re.S)`:
  with DOTALL the pattern matches iff the three literals `<rpc-reply>`,
  `</rpc-reply>`, `</hello` occur in this order (the final `>` is optional,
  hence irrelevant to existence, and the lazy/greedy gaps match anything),
  so searching each literal at its earliest position is equivalent
  → `matchesEnvelopePattern`
* `re.findall(r'<rpc-error>.*?</rpc-error>', raw, re.M|re.S)`: leftmost
  non-overlapping matches, each running from an `<rpc-error>` open tag to the
  earliest following `</rpc-error>` → `findallErrs`

`etree.XML` is embedded as a recursive-descent parser `parseDoc` over a tree
model `XNode` (elements with an optional namespace, a local name and child
nodes, plus text nodes; attributes and xmlns declarations are outside the
modelled subset, which none of the inputs of interest use).  A parse failure
(`none`) models lxml raising `XMLSyntaxError`.
-/

namespace Junos

abbrev Str := List Char

/-- Does `s` start with the pattern `pat`?  (Literal-by-literal comparison,
the primitive of all the `re` scans below.) -/
def leadsWith : Str → Str → Bool
  | [], _ => true
  | _ :: _, [] => false
  | p :: ps, c :: cs => p == c && leadsWith ps cs

/-- Earliest occurrence of `pat` in `s`: `some (pre, post)` with
`s = pre ++ pat ++ post` at the leftmost position, `none` if absent. -/
def splitAtSub (pat : Str) : Str → Option (Str × Str)
  | [] => if pat.isEmpty then some ([], []) else none
  | c :: rest =>
    if leadsWith pat (c :: rest) then some ([], (c :: rest).drop pat.length)
    else
      match splitAtSub pat rest with
      | some (pre, post) => some (c :: pre, post)
      | none => none

/-- Python `pat in s` (substring containment). -/
def containsSub (s pat : Str) : Bool := (splitAtSub pat s).isSome

/-- Fuel-driven body of `replaceAll`; the fuel starts at the input length and
never runs out for a non-empty pattern (each step consumes at least one
character). -/
def replaceAllF (pat repl : Str) : Nat → Str → Str
  | 0, s => s
  | _ + 1, [] => []
  | n + 1, c :: rest =>
    if leadsWith pat (c :: rest) then repl ++ replaceAllF pat repl n ((c :: rest).drop pat.length)
    else c :: replaceAllF pat repl n rest

/-- `re.sub(pat, repl, s)` for a literal pattern: replace every leftmost
non-overlapping occurrence. -/
def replaceAll (pat repl s : Str) : Str := replaceAllF pat repl s.length s

/-- The substring `'routing-engine'` tested by the first branch of
`handle_raw_dispatch`. -/
def reMarker : Str := "routing-engine".data

/-- The literal pattern of `re.sub` in the routing-engine branch. -/
def okTag : Str := "<ok/>".data

/-- The replacement text of `re.sub` in the routing-engine branch. -/
def okRepl : Str := "</routing-engine>\n<ok/>".data

def rpcReplyOpenTag : Str := "<rpc-reply>".data

def rpcReplyCloseTag : Str := "</rpc-reply>".data

/-- The mandatory part of the trailing literal of the envelope pattern: the
regex `</hello>?` makes only the final `>` optional. -/
def helloCloseMarker : Str := "</hello".data

def rpcErrorOpenTag : Str := "<rpc-error>".data

def rpcErrorCloseTag : Str := "</rpc-error>".data

/-- `re.search(r'<rpc-reply>.*?</rpc-reply>.*</hello>?', raw, re.M|re.S)`:
true iff `<rpc-reply>`, `</rpc-reply>`, `</hello` occur in order. -/
def matchesEnvelopePattern (raw : Str) : Bool :=
  match splitAtSub rpcReplyOpenTag raw with
  | none => false
  | some (_, rest1) =>
    match splitAtSub rpcReplyCloseTag rest1 with
    | none => false
    | some (_, rest2) => (splitAtSub helloCloseMarker rest2).isSome

/-- Fuel-driven body of `findallErrs`; each match consumes at least the two
tags, so fuel equal to the input length suffices. -/
def findallErrsF : Nat → Str → List Str
  | 0, _ => []
  | n + 1, s =>
    match splitAtSub rpcErrorOpenTag s with
    | none => []
    | some (_, afterOpen) =>
      match splitAtSub rpcErrorCloseTag afterOpen with
      | none => []
      | some (mid, afterClose) =>
        (rpcErrorOpenTag ++ mid ++ rpcErrorCloseTag) :: findallErrsF n afterClose

/-- `re.findall(r'<rpc-error>.*?</rpc-error>', raw, re.M|re.S)`: every
leftmost non-overlapping fragment from an open tag to the earliest
following close tag, in order of appearance. -/
def findallErrs (raw : Str) : List Str := findallErrsF raw.length raw

/-- XML tree model (the shape `etree.XML` produces for the modelled subset):
an element has an optional namespace, a local name and children; text nodes
carry raw text.  `elem (some ns) n k` models an lxml element whose tag is
the `QName` `{ns}n`. -/
inductive XNode where
  | elem (ns : Option Str) (name : Str) (children : List XNode)
  | text (s : Str)

mutual

/-- Structural equality test for `XNode` (the nested inductive prevents the
derived instance). -/
def beqX : XNode → XNode → Bool
  | .elem ns n k, .elem ns2 n2 k2 => ns == ns2 && n == n2 && beqXL k k2
  | .text s, .text t => s == t
  | _, _ => false

/-- Structural equality test for lists of `XNode`. -/
def beqXL : List XNode → List XNode → Bool
  | [], [] => true
  | x :: xs, y :: ys => beqX x y && beqXL xs ys
  | _, _ => false

end

mutual

/-- Soundness of `beqX` with respect to propositional equality (kept as a
definition so the decidability instance below can sit with the data
model). -/
def beqX_iff : ∀ a b, beqX a b = true ↔ a = b
  | .elem ns n k, .elem ns2 n2 k2 => by
    simp [beqX, beqXL_iff k k2, and_assoc]
  | .elem _ _ _, .text _ => by simp [beqX]
  | .text _, .elem _ _ _ => by simp [beqX]
  | .text s, .text t => by simp [beqX]

/-- Soundness of `beqXL`. -/
def beqXL_iff : ∀ as bs, beqXL as bs = true ↔ as = bs
  | [], [] => by simp [beqXL]
  | [], _ :: _ => by simp [beqXL]
  | _ :: _, [] => by simp [beqXL]
  | x :: xs, y :: ys => by
    simp [beqXL, beqX_iff x y, beqXL_iff xs ys]

end

instance : DecidableEq XNode :=
  fun a b => decidable_of_iff (beqX a b = true) (beqX_iff a b)

/-- Characters allowed in a tag name by the modelled XML subset. -/
def isNameChar (c : Char) : Bool :=
  c.isAlphanum || c == '-' || c == '_' || c == ':' || c == '.'

/-- Recursive-descent node-sequence parser (fuel-driven; fuel one more than
the input length always suffices since each step consumes input).  Returns
the nodes parsed up to the end of input or up to an unconsumed closing tag,
with the remaining input; `none` models an `XMLSyntaxError`. -/
def parseNodesF : Nat → Str → Option (List XNode × Str)
  | 0, _ => none
  | _ + 1, [] => some ([], [])
  | _ + 1, s@('<' :: '/' :: _) => some ([], s)
  | n + 1, '<' :: rest =>
    match List.span isNameChar rest with
    | ([], _) => none
    | (name, rest1) =>
      match rest1 with
      | '/' :: '>' :: rest2 =>
        (match parseNodesF n rest2 with
         | some (sibs, r) => some (XNode.elem none name [] :: sibs, r)
         | none => none)
      | '>' :: rest2 =>
        (match parseNodesF n rest2 with
         | some (kids, r) =>
           (match r with
            | '<' :: '/' :: r2 =>
              (match List.span isNameChar r2 with
               | (cname, '>' :: r4) =>
                 if cname = name then
                   match parseNodesF n r4 with
                   | some (sibs, r5) => some (XNode.elem none name kids :: sibs, r5)
                   | none => none
                 else none
               | _ => none)
            | _ => none)
         | none => none)
      | _ => none
  | n + 1, s =>
    match List.span (fun c => !(c == '<')) s with
    | (txt, rest1) =>
      match parseNodesF n rest1 with
      | some (sibs, r) => some (XNode.text txt :: sibs, r)
      | none => none

/-- `etree.XML` / `to_ele` on raw text: succeeds iff the whole input is a
single well-formed element, returning its tree; `none` models lxml raising
`XMLSyntaxError`. -/
def parseDoc (s : Str) : Option XNode :=
  match parseNodesF (s.length + 1) s with
  | some ([XNode.elem ns n k], []) => some (XNode.elem ns n k)
  | _ => none

/-- `BASE_NS_1_0` from `ncclient.xml_`: the standard NETCONF base
namespace. -/
def BASE_NS_1_0 : Str := "urn:ietf:params:xml:ns:netconf:base:1.0".data

/-- `NETCONF_MONITORING_NS` from `ncclient.xml_`. -/
def NETCONF_MONITORING_NS : Str :=
  "urn:ietf:params:xml:ns:yang:ietf-netconf-monitoring".data

mutual

/-- The `add_ns` XSLT stylesheet of `handle_raw_dispatch`: an identity tree
copy whose element template re-creates every element by local name under the
namespace `urn:ietf:params:xml:ns:netconf:base:1.0` (text content copied by
the built-in rules). -/
def nsInject : XNode → XNode
  | .elem _ name kids => .elem (some BASE_NS_1_0) name (nsInjectL kids)
  | .text s => .text s

/-- `nsInject` mapped over child nodes. -/
def nsInjectL : List XNode → List XNode
  | [] => []
  | x :: xs => nsInject x :: nsInjectL xs

end

mutual

/-- Does every element of the tree carry the NETCONF base namespace? -/
def allBase : XNode → Bool
  | .elem ns _ kids => ns == some BASE_NS_1_0 && allBaseL kids
  | .text _ => true

/-- `allBase` over a list of nodes. -/
def allBaseL : List XNode → Bool
  | [] => true
  | x :: xs => allBase x && allBaseL xs

end

/-- The `for err in errs` loop of `handle_raw_dispatch`: parse each matched
fragment as a standalone document (`etree.XML(err)`), propagating a parse
failure (lxml exception) of any fragment. -/
def mapParse : List Str → Option (List XNode)
  | [] => some []
  | s :: ss =>
    match parseDoc s, mapParse ss with
    | some d, some ds => some (d :: ds)
    | _, _ => none

/-- The values `handle_raw_dispatch` can return:
* `repaired s` — the routing-engine branch returns the substituted text;
* `rpcError agg details` — the error-extraction branch returns
  `RPCError(to_ele("<rpc-reply>"+''.join(errs)+"</rpc-reply>"), err_list)`,
  modelled by the aggregate document plus the ordered per-fragment
  documents the `err_list` entries are built from;
* `implicitNone` — Python `None`, the implicit fall-through when the
  envelope pattern matched but no fragment was found;
* `notApplicable` — Python `False`, the explicit no-pattern sentinel. -/
inductive Dispatch where
  | repaired (s : Str)
  | rpcError (agg : XNode) (details : List XNode)
  | implicitNone
  | notApplicable
deriving DecidableEq

instance : DecidableEq (Except Unit Dispatch) := fun a b =>
  match a, b with
  | Except.ok d, Except.ok d2 =>
    if h : d = d2 then isTrue (by rw [h]) else isFalse (by simp [h])
  | Except.error (), Except.error () => isTrue rfl
  | Except.ok _, Except.error () => isFalse (by simp)
  | Except.error (), Except.ok _ => isFalse (by simp)

/-- `JunosDeviceHandler.handle_raw_dispatch` (junos.py lines 62-86).
`Except.error ()` models an uncaught lxml exception. -/
def handle_raw_dispatch (raw : Str) : Except Unit Dispatch :=
  if containsSub raw reMarker then
    Except.ok (Dispatch.repaired (replaceAll okTag okRepl raw))
  else if matchesEnvelopePattern raw then
    match findallErrs raw with
    | [] => Except.ok Dispatch.implicitNone
    | e :: es =>
      match mapParse (e :: es) with
      | none => Except.error ()
      | some docs =>
        match parseDoc (rpcReplyOpenTag ++ (e :: es).flatten ++ rpcReplyCloseTag) with
        | none => Except.error ()
        | some agg => Except.ok (Dispatch.rpcError agg (nsInjectL docs))
  else Except.ok Dispatch.notApplicable

/-- Local name the schema fixup looks for. -/
def dataName : Str := "data".data

/-- Local name of the reply envelope element. -/
def rpcReplyName : Str := "rpc-reply".data

/-- The XPath predicate `*[local-name()="data"]`: an element child whose
local name is `data`, whatever its namespace. -/
def isDataElem : XNode → Bool
  | .elem _ name _ => name == dataName
  | .text _ => false

/-- Namespace of an element's `QName` (`QName(el).namespace`); `none` when
the tag carries no namespace. -/
def elemNS : XNode → Option Str
  | .elem ns _ _ => ns
  | .text _ => none

/-- Modelled from the spec: `replace_namespace` from `ncclient.xml_` is not
under `src/`; per the spec the fixup "rewrites" the located element "to
carry the monitoring namespace", so the element whose namespace is `old`
gets namespace `new`. -/
def replace_namespace (old new : Option Str) : XNode → XNode
  | .elem ns name kids => if ns = old then .elem new name kids else .elem ns name kids
  | .text s => .text s

/-- In-place mutation of the single matched `data` child inside the root's
child list: apply `f` to the children matching the XPath predicate (the
caller guarantees there is exactly one). -/
def mapDataChild (f : XNode → XNode) (kids : List XNode) : List XNode :=
  kids.map (fun k => if isDataElem k then f k else k)

/-- The lookup `root.xpath('/nc:rpc-reply/*[local-name()="data"]',
namespaces={'nc': BASE_NS_1_0})`: children of the document root with local
name `data`, provided the root element is `{BASE_NS_1_0}rpc-reply`. -/
def xpathDataElems (root : XNode) : List XNode :=
  match root with
  | XNode.elem (some rns) rname kids =>
    if rns = BASE_NS_1_0 ∧ rname = rpcReplyName then kids.filter isDataElem else []
  | _ => []

/-- `fix_get_schema_reply` (junos.py lines 135-156).  Returns the resulting
document root together with the number of warnings emitted
(`logger.warning` calls).  The source mutates `root` in place; the model
returns the new tree. -/
def fix_get_schema_reply (root : XNode) : XNode × Nat :=
  match root with
  | XNode.elem (some rns) rname kids =>
    if rns = BASE_NS_1_0 ∧ rname = rpcReplyName then
      match kids.filter isDataElem with
      | [d] =>
        if elemNS d = some BASE_NS_1_0 then
          (XNode.elem (some rns) rname
            (mapDataChild (replace_namespace (some BASE_NS_1_0) (some NETCONF_MONITORING_NS)) kids), 1)
        else if elemNS d = none then
          (XNode.elem (some rns) rname
            (mapDataChild (replace_namespace none (some NETCONF_MONITORING_NS)) kids), 0)
        else (root, 0)
      | _ => (root, 0)
    else (root, 0)
  | r => (r, 0)

/-- Modelled from the spec: a session's listeners (the transport session is
not under `src/`).  `sax` models a `SAXParserHandler` instance, `other`
any other listener. -/
inductive Listener where
  | sax
  | other (id : Nat)
deriving DecidableEq

/-- The parser strategies `get_xml_parser` can return:
`wholeDocument` models `DefaultXMLParser`, `streaming` models
`JunosXMLParser`. -/
inductive ParserKind where
  | wholeDocument
  | streaming
deriving DecidableEq

/-- Modelled from the spec: `session.get_listener_instance(SAXParserHandler)`
returns an attached `SAXParserHandler` listener if one exists. -/
def get_listener_instance : List Listener → Option Listener
  | [] => none
  | Listener.sax :: _ => some Listener.sax
  | _ :: rest => get_listener_instance rest

/-- Modelled from the spec: `session.remove_listener(l)` detaches that
listener; removing an absent listener is a no-op. -/
def remove_listener : List Listener → Listener → List Listener
  | [], _ => []
  | x :: rest, l => if x = l then rest else x :: remove_listener rest l

/-- Modelled from the spec: `session.add_listener(SAXParserHandler(session))`
attaches a new listener. -/
def add_listener (s : List Listener) (l : Listener) : List Listener := s ++ [l]

/-- Number of `SAXParserHandler` listeners attached to the session. -/
def countSax : List Listener → Nat
  | [] => 0
  | Listener.sax :: rest => countSax rest + 1
  | _ :: rest => countSax rest

/-- `JunosDeviceHandler.get_xml_parser` (junos.py lines 125-132):
`useFilter` is the truthiness of `device_params.get('use_filter', False)`;
the session's listener list is threaded explicitly. -/
def get_xml_parser_fn (useFilter : Bool) (s : List Listener) :
    ParserKind × List Listener :=
  if !useFilter then (ParserKind.wholeDocument, s)
  else
    match get_listener_instance s with
    | some l => (ParserKind.streaming, add_listener (remove_listener s l) Listener.sax)
    | none => (ParserKind.streaming, add_listener s Listener.sax)

end Junos

namespace Junos

mutual

theorem allBase_nsInject : ∀ d, allBase (nsInject d) = true
  | .elem ns name kids => by
    simp [nsInject, allBase, allBaseL_nsInjectL kids]
  | .text s => by simp [nsInject, allBase]

theorem allBaseL_nsInjectL : ∀ l, allBaseL (nsInjectL l) = true
  | [] => by simp [nsInjectL, allBaseL]
  | x :: xs => by
    simp [nsInjectL, allBaseL, allBase_nsInject x, allBaseL_nsInjectL xs]

end

theorem nsInjectL_length : ∀ l, (nsInjectL l).length = l.length
  | [] => rfl
  | x :: xs => by simp [nsInjectL, nsInjectL_length xs]

theorem mapParse_length : ∀ ss ds, mapParse ss = some ds → ds.length = ss.length
  | [], ds => by
    intro h
    simp only [mapParse, Option.some.injEq] at h
    simp [← h]
  | s :: ss, ds => by
    intro h
    simp only [mapParse] at h
    cases hp : parseDoc s with
    | none => rw [hp] at h; simp at h
    | some d =>
      rw [hp] at h
      cases hm : mapParse ss with
      | none => rw [hm] at h; simp at h
      | some ds2 =>
        rw [hm] at h
        simp only [Option.some.injEq] at h
        simp [← h, mapParse_length ss ds2 hm]

/-- C4: for every raw reply containing neither the `routing-engine` marker
nor the embedded-error envelope pattern, `handle_raw_dispatch` takes the
final `else` branch and returns the `False` sentinel (`notApplicable`),
performing no repair at all. -/
theorem C4_no_marker_notApplicable (raw : Str)
    (h1 : containsSub raw reMarker = false)
    (h2 : matchesEnvelopePattern raw = false) :
    handle_raw_dispatch raw = Except.ok Dispatch.notApplicable := by
  simp [handle_raw_dispatch, h1, h2]

/-- Witness for C4 at a plain well-formed reply. -/
theorem C4_witness :
    handle_raw_dispatch "<rpc-reply><data/></rpc-reply>".data =
      Except.ok Dispatch.notApplicable :=
  C4_no_marker_notApplicable _ (by decide) (by decide)

/-- C10: a raw reply without the routing-engine marker that matches the
envelope pattern but contains zero `<rpc-error>` fragments falls through
the inner `if` with no `return`, yielding Python `None` — a sentinel
distinct from the `False` of the no-pattern branch. -/
theorem C10_two_sentinels (raw : Str)
    (h1 : containsSub raw reMarker = false)
    (h2 : matchesEnvelopePattern raw = true)
    (h3 : findallErrs raw = []) :
    handle_raw_dispatch raw = Except.ok Dispatch.implicitNone ∧
      Dispatch.implicitNone ≠ Dispatch.notApplicable := by
  refine ⟨?_, by decide⟩
  simp [handle_raw_dispatch, h1, h2, h3]

/-- Witness for C10: an envelope-pattern reply without error fragments. -/
theorem C10_witness :
    handle_raw_dispatch "<rpc-reply>a</rpc-reply></hello>".data =
      Except.ok Dispatch.implicitNone ∧
      Dispatch.implicitNone ≠ Dispatch.notApplicable :=
  C10_two_sentinels _ (by decide) (by decide) (by decide)

/-- C3 counterexample: on a raw reply containing the marker and two `<ok/>`
tags, `re.sub` inserts the closing tag before **both** occurrences, so the
content before the terminal `<ok/>` is not preserved as the claim
requires. -/
theorem C3_counterexample :
    handle_raw_dispatch "<routing-engine><ok/><ok/>".data =
      Except.ok (Dispatch.repaired
        "<routing-engine></routing-engine>\n<ok/></routing-engine>\n<ok/>".data) ∧
      "<routing-engine></routing-engine>\n<ok/></routing-engine>\n<ok/>".data ≠
      "<routing-engine><ok/></routing-engine>\n<ok/>".data :=
  ⟨by decide, by decide⟩

/-- C3 (amended): for every raw reply containing the `routing-engine`
marker, `handle_raw_dispatch` returns the input with the closing tag
inserted immediately before **every** `<ok/>` occurrence (the `re.sub`
substitution); in particular the raw reply `"<routing-engine><ok/>"`
repairs to `"<routing-engine></routing-engine>\n<ok/>"`. -/
theorem C3_routing_engine_repair (raw : Str)
    (h : containsSub raw reMarker = true) :
    handle_raw_dispatch raw =
      Except.ok (Dispatch.repaired (replaceAll okTag okRepl raw)) ∧
    handle_raw_dispatch "<routing-engine><ok/>".data =
      Except.ok (Dispatch.repaired "<routing-engine></routing-engine>\n<ok/>".data) :=
  ⟨by simp [handle_raw_dispatch, h], by decide⟩

/-- Witness for C3 at a marker-bearing input. -/
theorem C3_witness :
    handle_raw_dispatch "a routing-engine b".data =
      Except.ok (Dispatch.repaired (replaceAll okTag okRepl "a routing-engine b".data)) :=
  (C3_routing_engine_repair _ (by decide)).1

/-- C5 counterexample: a well-formed reply that merely contains the
substring `routing-engine` is returned as (here: modified, hence corrupted)
text instead of the `notApplicable` sentinel. -/
theorem C5_counterexample :
    (parseDoc "<rpc-reply><routing-engine></routing-engine><ok/></rpc-reply>".data).isSome
      = true ∧
    handle_raw_dispatch
        "<rpc-reply><routing-engine></routing-engine><ok/></rpc-reply>".data ≠
      Except.ok Dispatch.notApplicable :=
  ⟨by decide, by decide⟩

/-- C5 (amended): `handle_raw_dispatch` can raise only on the
error-extraction path — whenever it raises, the input contained no
`routing-engine` marker, matched the envelope pattern and yielded at least
one fragment; on every other input it returns a value (for well-formed
inputs without the markers, the `notApplicable` sentinel by C4, but
well-formed inputs containing the marker are returned — possibly
modified — as text). -/
theorem C5_raise_only_extraction (raw : Str)
    (h : handle_raw_dispatch raw = Except.error ()) :
    containsSub raw reMarker = false ∧
    matchesEnvelopePattern raw = true ∧
    findallErrs raw ≠ [] := by
  by_cases h1 : containsSub raw reMarker = true
  · simp [handle_raw_dispatch, h1] at h
  · have h1f : containsSub raw reMarker = false := by simpa using h1
    by_cases h2 : matchesEnvelopePattern raw = true
    · refine ⟨h1f, h2, ?_⟩
      intro h3
      simp [handle_raw_dispatch, h1f, h2, h3] at h
    · have h2f : matchesEnvelopePattern raw = false := by simpa using h2
      simp [handle_raw_dispatch, h1f, h2f] at h

/-- Witness for C5: an input on which the code does raise (malformed
fragment body), satisfying the theorem's hypothesis. -/
theorem C5_witness :
    handle_raw_dispatch
        "<rpc-reply>w</rpc-reply></hello><rpc-error><u></v></rpc-error>".data =
      Except.error () ∧
    findallErrs "<rpc-reply>w</rpc-reply></hello><rpc-error><u></v></rpc-error>".data
      ≠ [] :=
  ⟨by decide,
    (C5_raise_only_extraction _ (by decide)).2.2⟩

/-- C2 counterexample: on a pattern-matching reply the function returns
only the externally-built error object (aggregate plus details); the
original raw text is not part of the returned value, contradicting
"returns the original unmodified raw text paired with the error
object". -/
theorem C2_counterexample :
    handle_raw_dispatch
        "<rpc-reply>y</rpc-reply></hello><rpc-error><err-x/></rpc-error>".data =
      Except.ok (Dispatch.rpcError
        (XNode.elem none "rpc-reply".data
          [XNode.elem none "rpc-error".data [XNode.elem none "err-x".data []]])
        [XNode.elem (some BASE_NS_1_0) "rpc-error".data
          [XNode.elem (some BASE_NS_1_0) "err-x".data []]]) ∧
    Dispatch.rpcError
        (XNode.elem none "rpc-reply".data
          [XNode.elem none "rpc-error".data [XNode.elem none "err-x".data []]])
        [XNode.elem (some BASE_NS_1_0) "rpc-error".data
          [XNode.elem (some BASE_NS_1_0) "err-x".data []]] ≠
      Dispatch.repaired
        "<rpc-reply>y</rpc-reply></hello><rpc-error><err-x/></rpc-error>".data :=
  ⟨by decide, by decide⟩

/-- C2 (amended): when the second malformation pattern is detected (no
routing-engine marker, envelope pattern matched, at least one fragment),
`handle_raw_dispatch` routes to the error extractor and returns only the
externally-built error object (or raises if a fragment fails to parse);
it never returns repaired text on this path, and no raw reply yields both
the structural-repair outcome and the error-extraction outcome. -/
theorem C2_error_extraction_exclusive (raw : Str)
    (h1 : containsSub raw reMarker = false)
    (h2 : matchesEnvelopePattern raw = true)
    (h3 : findallErrs raw ≠ []) :
    ((∃ agg ds, handle_raw_dispatch raw = Except.ok (Dispatch.rpcError agg ds)) ∨
      handle_raw_dispatch raw = Except.error ()) ∧
    (∀ s, handle_raw_dispatch raw ≠ Except.ok (Dispatch.repaired s)) ∧
    (∀ r2 s agg ds, handle_raw_dispatch r2 = Except.ok (Dispatch.repaired s) →
      handle_raw_dispatch r2 ≠ Except.ok (Dispatch.rpcError agg ds)) := by
  have key : (∃ agg ds, handle_raw_dispatch raw = Except.ok (Dispatch.rpcError agg ds)) ∨
      handle_raw_dispatch raw = Except.error () := by
    cases hfe : findallErrs raw with
    | nil => exact absurd hfe h3
    | cons e es =>
      cases hmp : mapParse (e :: es) with
      | none =>
        right
        simp [handle_raw_dispatch, h1, h2, hfe, hmp]
      | some docs =>
        cases hagg : parseDoc (rpcReplyOpenTag ++ (e :: es).flatten ++ rpcReplyCloseTag) with
        | none =>
          right
          simp only [List.flatten_cons, List.append_assoc] at hagg
          simp [handle_raw_dispatch, h1, h2, hfe, hmp, hagg]
        | some agg =>
          refine Or.inl ⟨agg, nsInjectL docs, ?_⟩
          simp only [List.flatten_cons, List.append_assoc] at hagg
          simp [handle_raw_dispatch, h1, h2, hfe, hmp, hagg]
  refine ⟨key, ?_, ?_⟩
  · intro s hs
    rcases key with ⟨agg, ds, he⟩ | he <;> rw [he] at hs <;> simp at hs
  · intro r2 s agg ds hrep hboth
    rw [hrep] at hboth
    simp at hboth

/-- Witness for C2: on a concrete pattern-matching reply, no repaired-text
outcome is produced. -/
theorem C2_witness :
    handle_raw_dispatch
        "<rpc-reply>b</rpc-reply></hello><rpc-error>oops</rpc-error>".data ≠
      Except.ok (Dispatch.repaired
        "<rpc-reply>b</rpc-reply></hello><rpc-error>oops</rpc-error>".data) :=
  (C2_error_extraction_exclusive _ (by decide) (by decide) (by decide)).2.1 _

theorem isDataElem_replace (old new : Option Str) (x : XNode) :
    isDataElem (replace_namespace old new x) = isDataElem x := by
  cases x with
  | elem ns name kids =>
    by_cases h : ns = old <;> simp [replace_namespace, isDataElem, h]
  | text s => rfl

theorem filter_mapDataChild (f : XNode → XNode)
    (hf : ∀ x, isDataElem (f x) = isDataElem x) :
    ∀ kids, (mapDataChild f kids).filter isDataElem = (kids.filter isDataElem).map f
  | [] => rfl
  | k :: ks => by
    have ih := filter_mapDataChild f hf ks
    simp only [mapDataChild] at ih ⊢
    simp only [List.map_cons, List.filter_cons]
    by_cases h : isDataElem k = true
    · simp [h, hf k, ih]
    · simp [h, hf k, ih]

/-- C1 counterexample: a raw reply matching the pattern with exactly one
`<rpc-error>` fragment whose body is not well-formed XML makes the code
raise (`etree.XML` fails on the fragment) instead of returning an
aggregate error carrying one entry. -/
theorem C1_counterexample :
    matchesEnvelopePattern
        "<rpc-reply>x</rpc-reply></hello><rpc-error><p></q></rpc-error>".data = true ∧
    (findallErrs
        "<rpc-reply>x</rpc-reply></hello><rpc-error><p></q></rpc-error>".data).length
      = 1 ∧
    handle_raw_dispatch
        "<rpc-reply>x</rpc-reply></hello><rpc-error><p></q></rpc-error>".data =
      Except.error () :=
  ⟨by decide, by decide, by decide⟩

/-- C1 (amended): for every raw reply on the extractor path whose N ≥ 1
matched fragments each parse as XML and whose wrapped concatenation parses
as XML, `handle_raw_dispatch` returns one aggregate error carrying exactly
N individual entries, in the order the fragments appear (entry i is the
namespace-injected parse of fragment i), each entry's elements all
rewritten to the standard NETCONF base namespace, and the aggregate
document is the parse of the original unrepaired fragments concatenated
inside a synthetic `<rpc-reply>` envelope. -/
theorem C1_extraction_aggregate (raw : Str) (errs : List Str)
    (docs : List XNode) (agg : XNode)
    (h1 : containsSub raw reMarker = false)
    (h2 : matchesEnvelopePattern raw = true)
    (h3 : findallErrs raw = errs)
    (h4 : errs ≠ [])
    (h5 : mapParse errs = some docs)
    (h6 : parseDoc (rpcReplyOpenTag ++ errs.flatten ++ rpcReplyCloseTag) = some agg) :
    handle_raw_dispatch raw = Except.ok (Dispatch.rpcError agg (nsInjectL docs)) ∧
    (nsInjectL docs).length = errs.length ∧
    allBaseL (nsInjectL docs) = true := by
  refine ⟨?_, ?_, allBaseL_nsInjectL docs⟩
  · cases errs with
    | nil => exact absurd rfl h4
    | cons e es =>
      simp only [List.flatten_cons, List.append_assoc] at h6
      simp [handle_raw_dispatch, h1, h2, h3, h5, h6]
  · rw [nsInjectL_length, mapParse_length errs docs h5]

/-- Witness for C1: a reply with two fragments, yielding an aggregate with
two entries in input order, both entries fully base-namespaced. -/
theorem C1_witness :
    handle_raw_dispatch
        "<rpc-reply>a</rpc-reply></hello><rpc-error>detail-a</rpc-error><rpc-error><info/></rpc-error>".data =
      Except.ok (Dispatch.rpcError
        (XNode.elem none "rpc-reply".data
          [XNode.elem none "rpc-error".data [XNode.text "detail-a".data],
           XNode.elem none "rpc-error".data [XNode.elem none "info".data []]])
        (nsInjectL
          [XNode.elem none "rpc-error".data [XNode.text "detail-a".data],
           XNode.elem none "rpc-error".data [XNode.elem none "info".data []]])) ∧
    (nsInjectL
        [XNode.elem none "rpc-error".data [XNode.text "detail-a".data],
         XNode.elem none "rpc-error".data [XNode.elem none "info".data []]]).length =
      ["<rpc-error>detail-a</rpc-error>".data,
       "<rpc-error><info/></rpc-error>".data].length ∧
    allBaseL (nsInjectL
        [XNode.elem none "rpc-error".data [XNode.text "detail-a".data],
         XNode.elem none "rpc-error".data [XNode.elem none "info".data []]]) = true :=
  C1_extraction_aggregate _
    ["<rpc-error>detail-a</rpc-error>".data, "<rpc-error><info/></rpc-error>".data]
    [XNode.elem none "rpc-error".data [XNode.text "detail-a".data],
     XNode.elem none "rpc-error".data [XNode.elem none "info".data []]]
    (XNode.elem none "rpc-reply".data
      [XNode.elem none "rpc-error".data [XNode.text "detail-a".data],
       XNode.elem none "rpc-error".data [XNode.elem none "info".data []]])
    (by decide) (by decide) (by decide) (by decide) (by decide) (by decide)

/-- C6: `fix_get_schema_reply` is idempotent — applying it twice to any
document root produces the same document as applying it once.  (After a
rewrite the data element carries the monitoring namespace, which the
second application leaves untouched; all no-op branches are trivially
stable.) -/
theorem C6_fix_idempotent (root : XNode) :
    (fix_get_schema_reply (fix_get_schema_reply root).1).1 =
      (fix_get_schema_reply root).1 := by
  cases root with
  | text s => simp [fix_get_schema_reply]
  | elem ns name kids =>
    cases ns with
    | none => simp [fix_get_schema_reply]
    | some rns =>
      by_cases hcond : rns = BASE_NS_1_0 ∧ name = rpcReplyName
      · cases hfil : kids.filter isDataElem with
        | nil => simp [fix_get_schema_reply, hcond, hfil]
        | cons d ds =>
          cases ds with
          | cons d2 ds2 => simp [fix_get_schema_reply, hcond, hfil]
          | nil =>
            have hmem : d ∈ kids.filter isDataElem := by
              rw [hfil]; exact List.mem_singleton_self d
            have hd : isDataElem d = true := (List.mem_filter.mp hmem).2
            cases d with
            | text t => simp [isDataElem] at hd
            | elem dns dname dk =>
              have hneq : ¬((some NETCONF_MONITORING_NS : Option Str)
                  = some BASE_NS_1_0) := by decide
              by_cases hb : dns = some BASE_NS_1_0
              · subst hb
                have hstep1 : fix_get_schema_reply (XNode.elem (some rns) name kids) =
                    (XNode.elem (some rns) name
                      (mapDataChild (replace_namespace (some BASE_NS_1_0)
                        (some NETCONF_MONITORING_NS)) kids), 1) := by
                  simp [fix_get_schema_reply, hcond, hfil, elemNS]
                have hfil2 : (mapDataChild (replace_namespace (some BASE_NS_1_0)
                      (some NETCONF_MONITORING_NS)) kids).filter isDataElem =
                    [XNode.elem (some NETCONF_MONITORING_NS) dname dk] := by
                  rw [filter_mapDataChild _ (isDataElem_replace _ _) kids, hfil]
                  simp [replace_namespace]
                rw [hstep1]
                simp [fix_get_schema_reply, hcond, hfil2, elemNS, hneq]
              · by_cases hn : dns = none
                · subst hn
                  have hstep1 : fix_get_schema_reply (XNode.elem (some rns) name kids) =
                      (XNode.elem (some rns) name
                        (mapDataChild (replace_namespace none
                          (some NETCONF_MONITORING_NS)) kids), 0) := by
                    simp [fix_get_schema_reply, hcond, hfil, elemNS]
                  have hfil2 : (mapDataChild (replace_namespace none
                        (some NETCONF_MONITORING_NS)) kids).filter isDataElem =
                      [XNode.elem (some NETCONF_MONITORING_NS) dname dk] := by
                    rw [filter_mapDataChild _ (isDataElem_replace _ _) kids, hfil]
                    simp [replace_namespace]
                  rw [hstep1]
                  simp [fix_get_schema_reply, hcond, hfil2, elemNS, hneq]
                · have hstep1 : fix_get_schema_reply (XNode.elem (some rns) name kids) =
                      (XNode.elem (some rns) name kids, 0) := by
                    simp [fix_get_schema_reply, hcond, hfil, elemNS, hb, hn]
                  rw [hstep1, hstep1]
      · have hstep1 : fix_get_schema_reply (XNode.elem (some rns) name kids) =
            (XNode.elem (some rns) name kids, 0) := by
          simp [fix_get_schema_reply, hcond]
        rw [hstep1, hstep1]

/-- C7: `fix_get_schema_reply` is a no-op whenever the namespace-agnostic
lookup finds zero or more than one `data` candidate, and whenever the
single candidate already bears a namespace other than the base NETCONF
namespace. -/
theorem C7_noop_cases (root : XNode) :
    ((xpathDataElems root).length ≠ 1 → fix_get_schema_reply root = (root, 0)) ∧
    (∀ u nm ks, xpathDataElems root = [XNode.elem (some u) nm ks] →
      u ≠ BASE_NS_1_0 → fix_get_schema_reply root = (root, 0)) := by
  cases root with
  | text s => exact ⟨fun _ => rfl, fun u nm ks h => by simp [xpathDataElems] at h⟩
  | elem ns name kids =>
    cases ns with
    | none =>
      exact ⟨fun _ => rfl, fun u nm ks h => by simp [xpathDataElems] at h⟩
    | some rns =>
      by_cases hcond : rns = BASE_NS_1_0 ∧ name = rpcReplyName
      · constructor
        · intro hlen
          rw [xpathDataElems, if_pos hcond] at hlen
          cases hfil : kids.filter isDataElem with
          | nil => simp [fix_get_schema_reply, hcond, hfil]
          | cons d ds =>
            cases ds with
            | nil => rw [hfil] at hlen; simp at hlen
            | cons d2 ds2 => simp [fix_get_schema_reply, hcond, hfil]
        · intro u nm ks hx hu
          rw [xpathDataElems, if_pos hcond] at hx
          have hns : ¬((some u : Option Str) = some BASE_NS_1_0) := by
            simpa using hu
          simp [fix_get_schema_reply, hcond, hx, elemNS, hns]
      · refine ⟨fun _ => by simp [fix_get_schema_reply, hcond], ?_⟩
        intro u nm ks hx
        rw [xpathDataElems, if_neg hcond] at hx
        simp at hx

/-- Witness for C7: a reply without any data child is untouched, and a
reply whose single data child carries a third-party namespace is
untouched. -/
theorem C7_witness :
    fix_get_schema_reply (XNode.elem (some BASE_NS_1_0) rpcReplyName []) =
      (XNode.elem (some BASE_NS_1_0) rpcReplyName [], 0) ∧
    fix_get_schema_reply (XNode.elem (some BASE_NS_1_0) rpcReplyName
        [XNode.elem (some "urn:other".data) dataName []]) =
      (XNode.elem (some BASE_NS_1_0) rpcReplyName
        [XNode.elem (some "urn:other".data) dataName []], 0) :=
  ⟨(C7_noop_cases _).1 (by decide),
   (C7_noop_cases _).2 "urn:other".data dataName [] (by decide) (by decide)⟩

/-- C8: on a reply whose single data element carries the base NETCONF
namespace, `fix_get_schema_reply` rewrites it to the monitoring namespace
and emits exactly one warning; on a data element with no namespace it
rewrites silently, emitting zero warnings. -/
theorem C8_rewrite_and_warnings (kids : List XNode) (dns : Option Str)
    (nm : Str) (dk : List XNode)
    (hfil : kids.filter isDataElem = [XNode.elem dns nm dk]) :
    (dns = some BASE_NS_1_0 →
      fix_get_schema_reply (XNode.elem (some BASE_NS_1_0) rpcReplyName kids) =
        (XNode.elem (some BASE_NS_1_0) rpcReplyName
          (mapDataChild (replace_namespace (some BASE_NS_1_0)
            (some NETCONF_MONITORING_NS)) kids), 1) ∧
      (mapDataChild (replace_namespace (some BASE_NS_1_0)
          (some NETCONF_MONITORING_NS)) kids).filter isDataElem =
        [XNode.elem (some NETCONF_MONITORING_NS) nm dk]) ∧
    (dns = none →
      fix_get_schema_reply (XNode.elem (some BASE_NS_1_0) rpcReplyName kids) =
        (XNode.elem (some BASE_NS_1_0) rpcReplyName
          (mapDataChild (replace_namespace none
            (some NETCONF_MONITORING_NS)) kids), 0) ∧
      (mapDataChild (replace_namespace none
          (some NETCONF_MONITORING_NS)) kids).filter isDataElem =
        [XNode.elem (some NETCONF_MONITORING_NS) nm dk]) := by
  constructor
  · intro hb
    subst hb
    constructor
    · simp [fix_get_schema_reply, hfil, elemNS]
    · rw [filter_mapDataChild _ (isDataElem_replace _ _) kids, hfil]
      simp [replace_namespace]
  · intro hn
    subst hn
    constructor
    · simp [fix_get_schema_reply, hfil, elemNS]
    · rw [filter_mapDataChild _ (isDataElem_replace _ _) kids, hfil]
      simp [replace_namespace]

/-- Witness for C8: both rewrite scenarios at concrete documents. -/
theorem C8_witness :
    fix_get_schema_reply (XNode.elem (some BASE_NS_1_0) rpcReplyName
        [XNode.elem (some BASE_NS_1_0) dataName []]) =
      (XNode.elem (some BASE_NS_1_0) rpcReplyName
        (mapDataChild (replace_namespace (some BASE_NS_1_0)
          (some NETCONF_MONITORING_NS)) [XNode.elem (some BASE_NS_1_0) dataName []]), 1) ∧
    fix_get_schema_reply (XNode.elem (some BASE_NS_1_0) rpcReplyName
        [XNode.elem none dataName []]) =
      (XNode.elem (some BASE_NS_1_0) rpcReplyName
        (mapDataChild (replace_namespace none
          (some NETCONF_MONITORING_NS)) [XNode.elem none dataName []]), 0) :=
  ⟨((C8_rewrite_and_warnings [XNode.elem (some BASE_NS_1_0) dataName []]
      (some BASE_NS_1_0) dataName [] (by decide)).1 rfl).1,
   ((C8_rewrite_and_warnings [XNode.elem none dataName []]
      none dataName [] (by decide)).2 rfl).1⟩

theorem countSax_append : ∀ a b, countSax (a ++ b) = countSax a + countSax b
  | [], b => by simp [countSax]
  | Listener.sax :: xs, b => by
    simp [countSax, countSax_append xs b]; omega
  | Listener.other i :: xs, b => by
    simp [countSax, countSax_append xs b]

theorem gli_eq_none : ∀ s, countSax s = 0 → get_listener_instance s = none
  | [], _ => rfl
  | Listener.sax :: rest, h => by simp [countSax] at h
  | Listener.other i :: rest, h => by
    simp only [countSax] at h
    simp [get_listener_instance, gli_eq_none rest h]

theorem gli_eq_some : ∀ s, countSax s ≠ 0 → get_listener_instance s = some Listener.sax
  | [], h => absurd rfl h
  | Listener.sax :: rest, _ => rfl
  | Listener.other i :: rest, h => by
    simp only [countSax] at h
    simp [get_listener_instance, gli_eq_some rest h]

theorem countSax_remove_sax :
    ∀ s, countSax (remove_listener s Listener.sax) = countSax s - 1
  | [] => rfl
  | Listener.sax :: rest => by simp [remove_listener, countSax]
  | Listener.other i :: rest => by
    simp [remove_listener, countSax, countSax_remove_sax rest]

theorem remove_append_sax : ∀ s, countSax s = 0 →
    remove_listener (s ++ [Listener.sax]) Listener.sax = s
  | [], _ => by simp [remove_listener]
  | Listener.sax :: rest, h => by simp [countSax] at h
  | Listener.other i :: rest, h => by
    simp only [countSax] at h
    simp [remove_listener, remove_append_sax rest h]

/-- C9: with `use_filter` absent or false, `get_xml_parser` returns the
whole-document parser and leaves the session's listeners untouched; with
`use_filter` true it returns the streaming parser and leaves exactly one
`SAXParserHandler` listener attached (removing any existing one first), and
repeating the selection on the resulting session reproduces the same
parser and session state. -/
theorem C9_parser_strategy (u : Bool) (s : List Listener) :
    (u = false → get_xml_parser_fn u s = (ParserKind.wholeDocument, s)) ∧
    (u = true → countSax s ≤ 1 →
      (get_xml_parser_fn u s).1 = ParserKind.streaming ∧
      countSax (get_xml_parser_fn u s).2 = 1 ∧
      get_xml_parser_fn u (get_xml_parser_fn u s).2 = get_xml_parser_fn u s) := by
  constructor
  · intro hu; subst hu; rfl
  · intro hu hc; subst hu
    by_cases h0 : countSax s = 0
    · have hg := gli_eq_none s h0
      have hres : get_xml_parser_fn true s =
          (ParserKind.streaming, add_listener s Listener.sax) := by
        simp [get_xml_parser_fn, hg]
      have hcount : countSax (add_listener s Listener.sax) = 1 := by
        simp [add_listener, countSax_append, countSax, h0]
      refine ⟨by rw [hres], by rw [hres]; exact hcount, ?_⟩
      rw [hres]
      have h2 : get_listener_instance (add_listener s Listener.sax) =
          some Listener.sax := gli_eq_some _ (by rw [hcount]; omega)
      simp only [get_xml_parser_fn, Bool.not_true, Bool.false_eq_true, if_false, h2]
      rw [show ((add_listener s Listener.sax : List Listener)) = s ++ [Listener.sax] from rfl,
        remove_append_sax s h0]
      rfl
    · have h1 : countSax s = 1 := by omega
      have hg := gli_eq_some s (by omega)
      have hres : get_xml_parser_fn true s =
          (ParserKind.streaming,
            add_listener (remove_listener s Listener.sax) Listener.sax) := by
        simp [get_xml_parser_fn, hg]
      have hrem0 : countSax (remove_listener s Listener.sax) = 0 := by
        rw [countSax_remove_sax, h1]
      have hcount : countSax (add_listener (remove_listener s Listener.sax)
          Listener.sax) = 1 := by
        simp [add_listener, countSax_append, countSax, hrem0]
      refine ⟨by rw [hres], by rw [hres]; exact hcount, ?_⟩
      rw [hres]
      have h2 : get_listener_instance (add_listener (remove_listener s Listener.sax)
          Listener.sax) = some Listener.sax := gli_eq_some _ (by rw [hcount]; omega)
      simp only [get_xml_parser_fn, Bool.not_true, Bool.false_eq_true, if_false, h2]
      rw [show ((add_listener (remove_listener s Listener.sax) Listener.sax : List Listener))
          = remove_listener s Listener.sax ++ [Listener.sax] from rfl,
        remove_append_sax _ hrem0]
      rfl

/-- Witness for C9: a session with one unrelated listener. -/
theorem C9_witness :
    get_xml_parser_fn false [Listener.other 0] =
      (ParserKind.wholeDocument, [Listener.other 0]) ∧
    countSax (get_xml_parser_fn true [Listener.other 0]).2 = 1 :=
  ⟨(C9_parser_strategy false [Listener.other 0]).1 rfl,
   ((C9_parser_strategy true [Listener.other 0]).2 rfl (by decide)).2.1⟩

end Junos
